import Mathlib

/-
Verification of seal/components/base.py: the abstract component hierarchy
(Component, ExperimentComponent, RunComponent, HybridComponent, Logger).

Embedding choices:
- A Python object is seen by the dispatch code only through the two
  isinstance checks the file performs, so a runtime object is modelled as
  a pair of Booleans (isExperiment, isRun) plus an identity tag.  Both
  flags may be true at once: Python allows a class to inherit from both
  Experiment and Run.
- The abstract hooks (_call_on_experiment, _call_on_run, log_experiment,
  log_run) are arbitrary functions supplied by a concrete subclass.  A
  hook may mutate the state of the component and may raise, so a hook is
  a function from state and argument to `Except err state`.
- An invocation of the public entry point (the dunder call method) is
  modelled as a function returning the list of hook invocations performed
  directly by the dispatch layer together with the resulting state or
  raised error.  Python exceptions propagate unchanged, which the model
  reflects by returning the hook result as-is.
- ABCMeta enforcement (the abstract-method construction check performed
  by the Python runtime for classes declared with metaclass=ABCMeta and
  methods marked @abstractmethod) is modelled by the set of abstract
  methods each class leaves unimplemented, and an instantiation function
  that fails exactly when the concrete subclass leaves one of them out.
-/

namespace SEAL

/-- Runtime view of a Python object, as seen by the dispatch code in
base.py: its answer to isinstance(obj, Experiment), its answer to
isinstance(obj, Run), and an identity tag distinguishing objects. -/
structure PyObj where
  isExperiment : Bool
  isRun : Bool
  oid : Nat
deriving DecidableEq, Repr

/-- One hook invocation performed by a component method, recording which
hook was called and with which argument.  The three sub-operations of
Logger appear so that it is expressible that the dispatch layer never
invokes them. -/
inductive HookEvent where
  | callOnExperiment (arg : PyObj)
  | callOnRun (arg : PyObj)
  | logExperiment (arg : PyObj)
  | logRun (arg : PyObj)
  | logMetricsCall (arg : PyObj)
  | logParamsCall (arg : PyObj)
  | logModelCall (arg : PyObj)
deriving DecidableEq, Repr

/-- A concrete ExperimentComponent subclass: its internal state and its
implementation of the abstract hook _call_on_experiment (which may update
the state or raise an error of type err). -/
structure ExperimentComponent (st err : Type) where
  state : st
  call_on_experiment : st → PyObj → Except err st

/-- ExperimentComponent.__call__ from base.py lines 27-28: it delegates
to self._call_on_experiment(object) with no guard, returning whatever the
hook returns and propagating whatever it raises.  The first component of
the result is the list of hook invocations the dispatch layer performed. -/
def ExperimentComponent.call (c : ExperimentComponent st err) (x : PyObj) :
    List HookEvent × Except err st :=
  ([HookEvent.callOnExperiment x], c.call_on_experiment c.state x)

/-- A concrete RunComponent subclass: its internal state and its
implementation of the abstract hook _call_on_run. -/
structure RunComponent (st err : Type) where
  state : st
  call_on_run : st → PyObj → Except err st

/-- RunComponent.__call__ from base.py lines 42-43: unconditional
delegation to self._call_on_run(object). -/
def RunComponent.call (c : RunComponent st err) (x : PyObj) :
    List HookEvent × Except err st :=
  ([HookEvent.callOnRun x], c.call_on_run c.state x)

/-- A concrete HybridComponent subclass: internal state plus the two
hooks _call_on_experiment and _call_on_run required by the interfaces it
inherits from. -/
structure HybridComponent (st err : Type) where
  state : st
  call_on_experiment : st → PyObj → Except err st
  call_on_run : st → PyObj → Except err st

/-- HybridComponent.__call__ from base.py lines 57-61: if
isinstance(object, Experiment) delegate to _call_on_experiment, elif
isinstance(object, Run) delegate to _call_on_run, else fall through and
return None (no hook invoked, no error raised, state untouched). -/
def HybridComponent.call (c : HybridComponent st err) (x : PyObj) :
    List HookEvent × Except err st :=
  if x.isExperiment then
    ([HookEvent.callOnExperiment x], c.call_on_experiment c.state x)
  else if x.isRun then
    ([HookEvent.callOnRun x], c.call_on_run c.state x)
  else
    ([], Except.ok c.state)

/-- Free-form keyword-argument set, as passed to the Logger constructor
and to the three logging sub-operations. -/
def Kwargs : Type := List (String × Nat)

/-- A concrete Logger subclass: internal state plus implementations of
the five abstract methods log_experiment, log_run, _log_metrics,
_log_params and _log_model. -/
structure Logger (st err : Type) where
  state : st
  log_experiment : st → PyObj → Except err st
  log_run : st → PyObj → Except err st
  log_metrics : st → Kwargs → Except err st
  log_params : st → Kwargs → Except err st
  log_model : st → Kwargs → Except err st

/-- Logger.__call__ from base.py lines 77-82: if isinstance(obj,
Experiment) call self.log_experiment(obj), elif isinstance(obj, Run) call
self.log_run(obj), else do nothing.  The dispatch layer itself invokes no
other method. -/
def Logger.call (c : Logger st err) (x : PyObj) :
    List HookEvent × Except err st :=
  if x.isExperiment then
    ([HookEvent.logExperiment x], c.log_experiment c.state x)
  else if x.isRun then
    ([HookEvent.logRun x], c.log_run c.state x)
  else
    ([], Except.ok c.state)

/-- Names of the methods that appear as abstract methods somewhere in the
hierarchy of base.py.  dunderCall and dunderInit stand for the special
call and init methods. -/
inductive MethodName where
  | dunderCall
  | dunderInit
  | call_on_experiment
  | call_on_run
  | log_experiment
  | log_run
  | log_metrics
  | log_params
  | log_model
deriving DecidableEq, Repr

/-- Abstract methods a direct Component subclass must implement: the
abstract dunder call method declared at base.py lines 15-17. -/
def Component.abstractMethods : List MethodName :=
  [MethodName.dunderCall]

/-- Abstract methods an ExperimentComponent subclass must implement:
_call_on_experiment (base.py lines 30-32); the inherited abstract dunder
call is overridden concretely at lines 27-28. -/
def ExperimentComponent.abstractMethods : List MethodName :=
  [MethodName.call_on_experiment]

/-- Abstract methods a RunComponent subclass must implement:
_call_on_run (base.py lines 45-47). -/
def RunComponent.abstractMethods : List MethodName :=
  [MethodName.call_on_run]

/-- Abstract methods a HybridComponent subclass must implement: both
hooks, inherited abstract from ExperimentComponent and RunComponent. -/
def HybridComponent.abstractMethods : List MethodName :=
  [MethodName.call_on_experiment, MethodName.call_on_run]

/-- Abstract methods a Logger subclass must implement: the abstract
constructor (base.py lines 73-75) and the five abstract logging methods
(lines 84-130); the inherited abstract dunder call is overridden
concretely at lines 77-82. -/
def Logger.abstractMethods : List MethodName :=
  [MethodName.dunderInit, MethodName.log_experiment, MethodName.log_run,
   MethodName.log_metrics, MethodName.log_params, MethodName.log_model]

/-- Error raised by the Python runtime when instantiating an abstract
class: a TypeError naming the abstract methods left unimplemented. -/
inductive PyInstErr where
  | typeErrorAbstract (missing : List MethodName)
deriving DecidableEq, Repr

/-- ABCMeta instantiation semantics: constructing an instance of a class
whose required abstract methods are not all implemented by the concrete
subclass raises TypeError at construction time; otherwise construction
succeeds. -/
def instantiate (required implemented : List MethodName) :
    Except PyInstErr Unit :=
  let missing := required.filter (fun m => decide (m ∉ implemented))
  if missing.isEmpty then Except.ok ()
  else Except.error (PyInstErr.typeErrorAbstract missing)

/-- A Python object whose class is Experiment (and not Run). -/
def expObj : PyObj := { isExperiment := true, isRun := false, oid := 0 }

/-- A Python object whose class is Run (and not Experiment). -/
def runObj : PyObj := { isExperiment := false, isRun := true, oid := 1 }

/-- A plain Python int: an instance of neither Experiment nor Run. -/
def intObj : PyObj := { isExperiment := false, isRun := false, oid := 42 }

/-- A Python object whose class inherits from both Experiment and Run,
so both isinstance checks answer true. -/
def bothObj : PyObj := { isExperiment := true, isRun := true, oid := 7 }

/-- The NullLogger of the test scenario: a Logger subclass implementing
all five abstract methods as no-ops, whose constructor accepts a
free-form configuration set and ignores it (no state is kept, so the
state type is Unit). -/
def mkNullLogger (_config : Kwargs) : Logger Unit Unit :=
  { state := ()
    log_experiment := fun s _ => Except.ok s
    log_run := fun s _ => Except.ok s
    log_metrics := fun s _ => Except.ok s
    log_params := fun s _ => Except.ok s
    log_model := fun s _ => Except.ok s }

/-- The method set NullLogger implements: the five Logger methods plus
its constructor. -/
def nullLoggerMethods : List MethodName :=
  [MethodName.dunderInit, MethodName.log_experiment, MethodName.log_run,
   MethodName.log_metrics, MethodName.log_params, MethodName.log_model]

/-- A concrete HybridComponent whose hooks are no-ops, used to exercise
the dispatch theorems on concrete inputs. -/
def nullHybrid : HybridComponent Unit Unit :=
  { state := ()
    call_on_experiment := fun s _ => Except.ok s
    call_on_run := fun s _ => Except.ok s }

/-- A concrete ExperimentComponent whose hook always raises, used to
exercise error propagation on a concrete input. -/
def failingExpComponent : ExperimentComponent Unit Unit :=
  { state := ()
    call_on_experiment := fun _ _ => Except.error () }

/-- C1: for every concrete HybridComponent subtype and input x, the
dispatch in the dunder call method invokes _call_on_experiment only when
x is an Experiment, invokes _call_on_run only when x is a Run, and when x
is neither it invokes no hook and returns without error, leaving the
state untouched. -/
theorem hybrid_call_dispatch_matches_type
    (c : HybridComponent st err) (x : PyObj) :
    (∀ y, HookEvent.callOnExperiment y ∈ (HybridComponent.call c x).fst →
      x.isExperiment = true) ∧
    (∀ y, HookEvent.callOnRun y ∈ (HybridComponent.call c x).fst →
      x.isRun = true) ∧
    (x.isExperiment = false → x.isRun = false →
      HybridComponent.call c x = ([], Except.ok c.state)) := by
  unfold HybridComponent.call
  by_cases hE : x.isExperiment <;> by_cases hR : x.isRun <;> simp [hE, hR]

/-- C1 witness: on a plain int the HybridComponent dispatch invokes no
hook and raises nothing. -/
theorem hybrid_call_dispatch_matches_type_witness :
    HybridComponent.call nullHybrid intObj = ([], Except.ok ()) :=
  (hybrid_call_dispatch_matches_type nullHybrid intObj).2.2 rfl rfl

/-- C2: for every concrete Logger subtype and input x, the dispatch in
the dunder call method invokes log_experiment only when x is an
Experiment, invokes log_run only when x is a Run, and when x is neither
it invokes no method and returns without error. -/
theorem logger_call_dispatch_matches_type
    (c : Logger st err) (x : PyObj) :
    (∀ y, HookEvent.logExperiment y ∈ (Logger.call c x).fst →
      x.isExperiment = true) ∧
    (∀ y, HookEvent.logRun y ∈ (Logger.call c x).fst →
      x.isRun = true) ∧
    (x.isExperiment = false → x.isRun = false →
      Logger.call c x = ([], Except.ok c.state)) := by
  unfold Logger.call
  by_cases hE : x.isExperiment <;> by_cases hR : x.isRun <;> simp [hE, hR]

/-- C2 witness: on a plain int the Logger dispatch invokes no method and
raises nothing. -/
theorem logger_call_dispatch_matches_type_witness :
    Logger.call (mkNullLogger []) intObj = ([], Except.ok ()) :=
  (logger_call_dispatch_matches_type (mkNullLogger []) intObj).2.2 rfl rfl

/-- C3: the dunder call method of ExperimentComponent delegates to
_call_on_experiment exactly once with the argument passed through
unchanged, for every input x without any guard, and its result is
exactly the hook result. -/
theorem experiment_component_call_delegates_exactly_once
    (c : ExperimentComponent st err) (x : PyObj) :
    ((ExperimentComponent.call c x).fst.count (HookEvent.callOnExperiment x)
      = 1) ∧
    (ExperimentComponent.call c x).fst = [HookEvent.callOnExperiment x] ∧
    (ExperimentComponent.call c x).snd = c.call_on_experiment c.state x := by
  refine ⟨?_, rfl, rfl⟩
  simp [ExperimentComponent.call]

/-- C4: the dunder call method of RunComponent delegates to _call_on_run
exactly once with the argument passed through unchanged, and its result
is exactly the hook result. -/
theorem run_component_call_delegates_exactly_once
    (c : RunComponent st err) (x : PyObj) :
    ((RunComponent.call c x).fst.count (HookEvent.callOnRun x) = 1) ∧
    (RunComponent.call c x).fst = [HookEvent.callOnRun x] ∧
    (RunComponent.call c x).snd = c.call_on_run c.state x := by
  refine ⟨?_, rfl, rfl⟩
  simp [RunComponent.call]

/-- C5: instantiating a subtype of any of the five classes that leaves
some required abstract method unimplemented fails at construction time
with a TypeError naming a nonempty set of missing methods (so no object
exists at which a first invocation could later fail). -/
theorem abstract_instantiation_fails_at_construction
    (required implemented : List MethodName)
    (_hreq : required = Component.abstractMethods ∨
      required = ExperimentComponent.abstractMethods ∨
      required = RunComponent.abstractMethods ∨
      required = HybridComponent.abstractMethods ∨
      required = Logger.abstractMethods)
    (m : MethodName) (hm : m ∈ required) (hmiss : m ∉ implemented) :
    ∃ missing, missing ≠ [] ∧
      instantiate required implemented =
        Except.error (PyInstErr.typeErrorAbstract missing) := by
  have hmem : m ∈ required.filter (fun m => decide (m ∉ implemented)) :=
    List.mem_filter.mpr ⟨hm, by simpa using hmiss⟩
  have hne : required.filter (fun m => decide (m ∉ implemented)) ≠ [] := by
    intro h
    rw [h] at hmem
    exact absurd hmem (List.not_mem_nil m)
  refine ⟨required.filter (fun m => decide (m ∉ implemented)), hne, ?_⟩
  unfold instantiate
  have hfalse :
      (required.filter (fun m => decide (m ∉ implemented))).isEmpty = false := by
    rw [List.isEmpty_eq_false]
    exact hne
  simp [hfalse]
  exact ⟨m, hm, hmiss⟩

/-- C5 witness: a Logger subclass implementing nothing fails to
instantiate. -/
theorem abstract_instantiation_fails_at_construction_witness :
    ∃ missing, missing ≠ [] ∧
      instantiate Logger.abstractMethods [] =
        Except.error (PyInstErr.typeErrorAbstract missing) :=
  abstract_instantiation_fails_at_construction Logger.abstractMethods []
    (Or.inr (Or.inr (Or.inr (Or.inr rfl)))) MethodName.dunderInit
    (by decide) (by decide)

/-- C6: any error raised by the _call_on_experiment hook propagates
unchanged through the public dunder call of ExperimentComponent: the
invocation raises exactly the error the hook raises, with no handling or
wrapping added. -/
theorem experiment_component_error_propagates
    (c : ExperimentComponent st err) (x : PyObj) (e : err)
    (h : c.call_on_experiment c.state x = Except.error e) :
    (ExperimentComponent.call c x).snd = Except.error e := h

/-- C6 witness: a concrete component whose hook raises makes the public
invocation raise the same error. -/
theorem experiment_component_error_propagates_witness :
    (ExperimentComponent.call failingExpComponent expObj).snd =
      Except.error () :=
  experiment_component_error_propagates failingExpComponent expObj () rfl

/-- C7: the NullLogger, implementing all five abstract methods as no-ops
and constructed from an empty configuration set, instantiates
successfully and can be invoked on an Experiment, on a Run and on a
plain int, raising no error in any of the three cases. -/
theorem null_logger_never_raises :
    instantiate Logger.abstractMethods nullLoggerMethods = Except.ok () ∧
    Logger.call (mkNullLogger []) expObj =
      ([HookEvent.logExperiment expObj], Except.ok ()) ∧
    Logger.call (mkNullLogger []) runObj =
      ([HookEvent.logRun runObj], Except.ok ()) ∧
    Logger.call (mkNullLogger []) intObj = ([], Except.ok ()) :=
  ⟨rfl, rfl, rfl, rfl⟩

/-- C8: the dispatch layer is stateless: the result of an invocation of
HybridComponent or Logger is either the untouched initial state or
exactly what the single dispatched hook produced, and on an argument of
neither type the state comes back entirely unchanged with no hook
invoked. -/
theorem dispatch_layer_stateless
    (ch : HybridComponent st err) (cl : Logger st2 err2) (x : PyObj) :
    ((HybridComponent.call ch x).snd = Except.ok ch.state ∨
     (HybridComponent.call ch x).snd = ch.call_on_experiment ch.state x ∨
     (HybridComponent.call ch x).snd = ch.call_on_run ch.state x) ∧
    ((Logger.call cl x).snd = Except.ok cl.state ∨
     (Logger.call cl x).snd = cl.log_experiment cl.state x ∨
     (Logger.call cl x).snd = cl.log_run cl.state x) ∧
    (x.isExperiment = false → x.isRun = false →
      HybridComponent.call ch x = ([], Except.ok ch.state) ∧
      Logger.call cl x = ([], Except.ok cl.state)) := by
  unfold HybridComponent.call Logger.call
  by_cases hE : x.isExperiment <;> by_cases hR : x.isRun <;> simp [hE, hR]

/-- C8 witness: on a plain int both dispatchers return the initial state
unchanged with an empty invocation trace. -/
theorem dispatch_layer_stateless_witness :
    HybridComponent.call nullHybrid intObj = ([], Except.ok ()) ∧
    Logger.call (mkNullLogger []) intObj = ([], Except.ok ()) :=
  (dispatch_layer_stateless nullHybrid (mkNullLogger []) intObj).2.2 rfl rfl

/-- C9: the Experiment case is checked before the Run case in both
HybridComponent and Logger dispatch, so an object that is an instance of
both classes is routed to the experiment handler only and the run
handler is never invoked. -/
theorem experiment_checked_before_run
    (ch : HybridComponent st err) (cl : Logger st2 err2) (x : PyObj)
    (hE : x.isExperiment = true) (_hR : x.isRun = true) :
    HybridComponent.call ch x =
      ([HookEvent.callOnExperiment x], ch.call_on_experiment ch.state x) ∧
    (∀ y, HookEvent.callOnRun y ∉ (HybridComponent.call ch x).fst) ∧
    Logger.call cl x =
      ([HookEvent.logExperiment x], cl.log_experiment cl.state x) ∧
    (∀ y, HookEvent.logRun y ∉ (Logger.call cl x).fst) := by
  unfold HybridComponent.call Logger.call
  simp [hE]

/-- C9 witness: a concrete object that is an instance of both classes is
routed to the experiment handler by both dispatchers. -/
theorem experiment_checked_before_run_witness :
    HybridComponent.call nullHybrid bothObj =
      ([HookEvent.callOnExperiment bothObj], Except.ok ()) ∧
    Logger.call (mkNullLogger []) bothObj =
      ([HookEvent.logExperiment bothObj], Except.ok ()) :=
  have h := experiment_checked_before_run nullHybrid (mkNullLogger [])
    bothObj rfl rfl
  ⟨h.1, h.2.2.1⟩

/-- C10: the only Logger methods the dispatch layer ever invokes are
log_experiment and log_run: no invocation of the dunder call method can
place a _log_metrics, _log_params or _log_model call in the dispatch
trace. -/
theorem logger_call_reaches_only_top_level_hooks
    (c : Logger st err) (x : PyObj) (ev : HookEvent)
    (h : ev ∈ (Logger.call c x).fst) :
    (∃ y, ev = HookEvent.logExperiment y) ∨
    (∃ y, ev = HookEvent.logRun y) := by
  unfold Logger.call at h
  by_cases hE : x.isExperiment
  · simp [hE] at h
    exact Or.inl ⟨x, h⟩
  · by_cases hR : x.isRun
    · simp [hE, hR] at h
      exact Or.inr ⟨x, h⟩
    · simp [hE, hR] at h

/-- C10 witness: the one event in the trace of a concrete invocation on
an Experiment is a log_experiment call. -/
theorem logger_call_reaches_only_top_level_hooks_witness :
    (∃ y, HookEvent.logExperiment expObj = HookEvent.logExperiment y) ∨
    (∃ y, HookEvent.logExperiment expObj = HookEvent.logRun y) :=
  logger_call_reaches_only_top_level_hooks (mkNullLogger []) expObj
    (HookEvent.logExperiment expObj) (by decide)

end SEAL
